import Mathlib

/-!
Shallow embedding of the wiremockGenerator repository (ASP.NET server services,
controller, and TypeScript client validation), together with theorems checking
the natural-language specification against the code.

Server side (C#):
  * `ATOMMockGenerator.Server/Services/MappingService.cs`
  * `ATOMMockGenerator.Server/Services/ConfigValidationService.cs`
  * `WiremockAdminService` and `ConfigController`
Client side (TypeScript):
  * `atommockgenerator.client/src/services/api.ts` (SimpleValidator,
    ValidationService)

C# strings that may be `null` are embedded as `Option String` where the code
distinguishes null (or as plain `String` with `""` for null where only
`IsNullOrWhiteSpace`-style checks are applied).  .NET dictionaries are embedded
as insertion-ordered association lists with replace-on-insert semantics.
`Guid.NewGuid()` is embedded as an explicit supply `Nat → String` threaded
through a counter.  Library URI parsing (`Uri.TryCreate`, JS `new URL`) is
embedded by a simple executable approximation; no theorem below depends on its
exact behaviour.
-/

namespace WiremockGen

/-- Embeds C# `string.IsNullOrWhiteSpace` on a non-null string: true iff the
string is empty or consists only of whitespace characters.  (Implemented over
the character list so that it evaluates by kernel reduction.) -/
def isWhiteSpaceStr (s : String) : Bool :=
  s.data.all (fun c => c.isWhitespace)

/-- Embeds C# `string.IsNullOrWhiteSpace` on a nullable string. -/
def isNullOrWhiteSpace : Option String → Bool
  | none => true
  | some s => isWhiteSpaceStr s

/-- Negation of `isNullOrWhiteSpace`: the field counts as present. -/
def strFilled (o : Option String) : Bool :=
  !(isNullOrWhiteSpace o)

/-- Embeds C# `string.IsNullOrEmpty` on a nullable string. -/
def isNullOrEmpty : Option String → Bool
  | none => true
  | some s => s.data.isEmpty

/-- Character-list based `String.toUpper` (kernel-evaluable). -/
def toUpperStr (s : String) : String :=
  String.mk (s.data.map Char.toUpper)

/-- Character-list based `String.toLower` (kernel-evaluable). -/
def toLowerStr (s : String) : String :=
  String.mk (s.data.map Char.toLower)

/-- Character-list based replacement of a single character by a string,
embedding C# `string.Replace` for a one-character pattern (the only patterns
the transformer uses are `"{"` and `"}"`). -/
def replaceCharStr (s : String) (c : Char) (r : String) : String :=
  String.mk (s.data.flatMap (fun ch => if ch = c then r.data else [ch]))

/-- Insertion into a .NET `Dictionary` (embedded as an insertion-ordered
association list): the indexer replaces the value in place when the key
exists and appends otherwise. -/
def dictInsert {α : Type} : List (String × α) → String → α → List (String × α)
  | [], k, v => [(k, v)]
  | (k', v') :: rest, k, v =>
      if k' = k then (k, v) :: rest else (k', v') :: dictInsert rest k v

/-- Splits a character list at the first `"://"` separator. -/
def uriSepSplit : List Char → Option (List Char × List Char)
  | [] => none
  | ':' :: '/' :: '/' :: rest => some ([], rest)
  | c :: rest => (uriSepSplit rest).map (fun p => (c :: p.1, p.2))

/-- Embeds `System.Uri.TryCreate(s, UriKind.Absolute, out _)` by an executable
approximation: the string must contain a nonempty scheme followed by `://` and
a nonempty remainder.  No theorem in this file depends on the exact .NET URI
grammar. -/
def uriTryCreateAbsolute (s : String) : Bool :=
  match uriSepSplit s.data with
  | some p => !(p.1.isEmpty) && !(p.2.isEmpty)
  | none => false

/-! ### Server data model

Embeds the model classes referenced by the services (`ATOMConfig`,
`MockConfig`, `WiremockMapping`, `JsonConfig`, `ValidationResult`, ...).
Field nullability follows the services' usage. -/

/-- Embeds `AuthConfig` (target authentication). `Type` is accessed via
`.ToLower()` without a null check, so it is a plain string. -/
structure AuthConfig where
  type : String
  username : Option String := none
  password : Option String := none
  token : Option String := none
  deriving Repr, DecidableEq

/-- Embeds `TargetConfig`. -/
structure TargetConfig where
  baseUrl : Option String := none
  auth : Option AuthConfig := none
  deriving Repr, DecidableEq

/-- Embeds `DefaultsConfig` (document-level defaults). -/
structure DefaultsConfig where
  priority : Option Int := none
  headers : Option (List (String × String)) := none
  deriving Repr, DecidableEq

/-- Embeds `RequestMatcher` (header / query-parameter matcher with optional
`EqualTo` / `Contains` / `Matches` fields; the latter two carry a trailing
underscore because they collide with Lean keywords). -/
structure RequestMatcher where
  equalTo : Option String := none
  contains_ : Option String := none
  matches_ : Option String := none
  deriving Repr, DecidableEq

/-- Embeds `EqualToJsonPattern`. -/
structure EqualToJsonPattern where
  json : String
  ignoreExtraElements : Option Bool := none
  ignoreArrayOrder : Option Bool := none
  deriving Repr, DecidableEq

/-- Embeds `RequestBodyPattern`. -/
structure RequestBodyPattern where
  equalToJson : Option EqualToJsonPattern := none
  matchesJsonPath : Option String := none
  deriving Repr, DecidableEq

/-- Embeds `MockRequest` (canonical-dialect request spec). -/
structure MockRequest where
  method : String
  url : Option String := none
  urlPattern : Option String := none
  urlPath : Option String := none
  urlPathPattern : Option String := none
  pathTemplate : Option String := none
  queryParameters : Option (List (String × RequestMatcher)) := none
  headers : Option (List (String × RequestMatcher)) := none
  bodyPatterns : Option (List RequestBodyPattern) := none
  deriving Repr, DecidableEq

/-- Embeds `ResponseBody`. -/
structure ResponseBody where
  type : String
  value : Option String := none
  fileName : Option String := none
  templating : Option Bool := none
  deriving Repr, DecidableEq

/-- Embeds `MockResponse` (canonical-dialect response spec). -/
structure MockResponse where
  status : Int
  headers : Option (List (String × String)) := none
  body : Option ResponseBody := none
  fixedDelayMilliseconds : Option Int := none
  proxyBaseUrl : Option String := none
  deriving Repr, DecidableEq

/-- Embeds `ScenarioConfig`. -/
structure ScenarioConfig where
  name : Option String := none
  requiredState : Option String := none
  newState : Option String := none
  deriving Repr, DecidableEq

/-- Embeds `MockConfig` (one canonical-dialect mock). -/
structure MockConfig where
  name : Option String := none
  priority : Option Int := none
  request : MockRequest
  response : MockResponse
  scenario : Option ScenarioConfig := none
  deriving Repr, DecidableEq

/-- Embeds `ATOMConfig` (canonical-dialect document).  A null `Mocks` list and
an empty one are validated identically, so both embed as `[]`. -/
structure ATOMConfig where
  version : String := ""
  target : Option TargetConfig := none
  defaults : Option DefaultsConfig := none
  mocks : List MockConfig := []
  deriving Repr, DecidableEq

/-- A request-header matcher value in the generated mapping: a field-name →
value object (`new { equalTo = v }` for defaults, a `Dictionary<string,string>`
with the subset of set matcher fields for mock-level headers; both serialize to
the same JSON shape). -/
abbrev HeaderMatcherValue := List (String × String)

/-- A body pattern emitted into the generated mapping. -/
inductive WiremockBodyPattern where
  | equalToJson (json : String) (ignoreExtraElements : Option Bool)
      (ignoreArrayOrder : Option Bool)
  | matchesJsonPath (p : String)
  deriving Repr, DecidableEq

/-- Embeds `WiremockRequest` (generated mapping request). -/
structure WiremockRequest where
  method : String := ""
  url : Option String := none
  urlPattern : Option String := none
  headers : Option (List (String × HeaderMatcherValue)) := none
  bodyPatterns : Option (List WiremockBodyPattern) := none
  deriving Repr, DecidableEq

/-- Embeds `WiremockResponse` (generated mapping response). -/
structure WiremockResponse where
  status : Int := 0
  headers : Option (List (String × String)) := none
  body : Option String := none
  jsonBody : Option String := none
  bodyFileName : Option String := none
  deriving Repr, DecidableEq

/-- Embeds `WiremockMapping` (generation / deployment unit).  `Id` is a plain
C# string defaulting to empty. -/
structure WiremockMapping where
  id : String := ""
  priority : Option Int := none
  scenarioName : Option String := none
  requiredScenarioState : Option String := none
  newScenarioState : Option String := none
  request : WiremockRequest := {}
  response : WiremockResponse := {}
  deriving Repr, DecidableEq

/-- Embeds `JsonConfig` (legacy-dialect document). -/
structure JsonConfig where
  name : String := ""
  version : String := ""
  baseUrl : Option String := none
  port : Option Int := none
  mappings : List WiremockMapping := []
  deriving Repr, DecidableEq

/-- Embeds `ValidationError`. -/
structure ValidationError where
  path : String
  message : String
  severity : String
  deriving Repr, DecidableEq

/-- Embeds `ValidationResult`. -/
structure ValidationResult where
  isValid : Bool
  errors : List ValidationError
  warnings : List ValidationError
  deriving Repr, DecidableEq

/-! ### MappingService.ConvertToWiremockMapping -/

/-- Embeds the URL-matching if/else chain of
`MappingService.ConvertToWiremockMapping` (MappingService.cs lines 107-129):
returns the pair `(Request.Url, Request.UrlPattern)` that the chain assigns.
The `pathTemplate` branch performs
`PathTemplate.Replace("{", "([^/]+)").Replace("}", "")`. -/
def resolveUrlMatching (r : MockRequest) : Option String × Option String :=
  if strFilled r.url then (r.url, none)
  else if strFilled r.urlPattern then (none, r.urlPattern)
  else if strFilled r.urlPath then (r.urlPath, none)
  else if strFilled r.urlPathPattern then (none, r.urlPathPattern)
  else if strFilled r.pathTemplate then
    (none, r.pathTemplate.map (fun t =>
      replaceCharStr (replaceCharStr t '\x7b' "([^/]+)") '\x7d' ""))
  else (none, none)

/-- One mock-level request header converted to its matcher object: only the
matcher fields that pass `IsNullOrWhiteSpace` are copied. -/
def convertRequestHeader (m : RequestMatcher) : HeaderMatcherValue :=
  (match m.equalTo with
    | some v => if isWhiteSpaceStr v then [] else [("equalTo", v)]
    | none => []) ++
  (match m.contains_ with
    | some v => if isWhiteSpaceStr v then [] else [("contains", v)]
    | none => []) ++
  (match m.matches_ with
    | some v => if isWhiteSpaceStr v then [] else [("matches", v)]
    | none => [])

/-- Request-header merge of `ConvertToWiremockMapping`: default headers first
(each as an exact-match object), then mock-level headers overwriting by key. -/
def mergeRequestHeaders (defaults : Option (List (String × String)))
    (mockHeaders : Option (List (String × RequestMatcher))) :
    List (String × HeaderMatcherValue) :=
  let base : List (String × HeaderMatcherValue) :=
    (defaults.getD []).foldl
      (fun acc kv => dictInsert acc kv.1 [("equalTo", kv.2)]) []
  (mockHeaders.getD []).foldl
    (fun acc kv => dictInsert acc kv.1 (convertRequestHeader kv.2)) base

/-- Body-pattern conversion of `ConvertToWiremockMapping`: `equalToJson`
patterns copy the json plus the optional flags only when set; otherwise a
non-whitespace `matchesJsonPath` is copied; other patterns are dropped. -/
def convertBodyPatterns (ps : List RequestBodyPattern) :
    List WiremockBodyPattern :=
  ps.foldl
    (fun acc p =>
      match p.equalToJson with
      | some ej =>
          acc ++ [WiremockBodyPattern.equalToJson ej.json
            ej.ignoreExtraElements ej.ignoreArrayOrder]
      | none =>
          if strFilled p.matchesJsonPath then
            match p.matchesJsonPath with
            | some mp => acc ++ [WiremockBodyPattern.matchesJsonPath mp]
            | none => acc
          else acc) []

/-- Response-header merge of `ConvertToWiremockMapping`: default headers
copied as plain strings, then mock-level response headers overwriting by
key. -/
def mergeResponseHeaders (defaults : Option (List (String × String)))
    (mockHeaders : Option (List (String × String))) :
    List (String × String) :=
  let base : List (String × String) :=
    (defaults.getD []).foldl (fun acc kv => dictInsert acc kv.1 kv.2) []
  (mockHeaders.getD []).foldl (fun acc kv => dictInsert acc kv.1 kv.2) base

/-- Embeds `MappingService.ConvertToWiremockMapping(mock, config)`
(MappingService.cs lines 90-239).  `freshId` stands for the
`Guid.NewGuid().ToString()` drawn for the new mapping. -/
def convertToWiremockMapping (freshId : String) (mock : MockConfig)
    (config : ATOMConfig) : WiremockMapping :=
  let urls := resolveUrlMatching mock.request
  let reqHeaders :=
    mergeRequestHeaders (config.defaults.bind (fun d => d.headers))
      mock.request.headers
  let respHeaders :=
    mergeResponseHeaders (config.defaults.bind (fun d => d.headers))
      mock.response.headers
  let bodyPats :=
    match mock.request.bodyPatterns with
    | some ps => if ps.length > 0 then some (convertBodyPatterns ps) else none
    | none => none
  { id := freshId
    priority :=
      match mock.priority with
      | some p => some p
      | none => config.defaults.bind (fun d => d.priority)
    scenarioName := mock.scenario.bind (fun s => s.name)
    requiredScenarioState := mock.scenario.bind (fun s => s.requiredState)
    newScenarioState := mock.scenario.bind (fun s => s.newState)
    request :=
      { method := mock.request.method
        url := urls.1
        urlPattern := urls.2
        headers := if reqHeaders.length > 0 then some reqHeaders else none
        bodyPatterns := bodyPats }
    response :=
      { status := mock.response.status
        headers := if respHeaders.length > 0 then some respHeaders else none
        body :=
          match mock.response.body with
          | some b => if b.type = "inline" then b.value else none
          | none => none
        bodyFileName :=
          match mock.response.body with
          | some b => if b.type = "file" then b.fileName else none
          | none => none } }

/-! ### MappingService store operations -/

/-- State of the in-memory `MappingService`: the stored mappings plus the
counter indexing the next `Guid.NewGuid()` draw from the id supply. -/
structure MappingStore where
  entries : List (String × WiremockMapping) := []
  nextId : Nat := 0
  deriving Repr

/-- Embeds `MappingService.CreateMappingAsync` (MappingService.cs lines
35-40): unconditionally assigns `mapping.Id = Guid.NewGuid().ToString()` and
stores the mapping under the new id. -/
def createMappingAsync (supply : Nat → String) (st : MappingStore)
    (mapping : WiremockMapping) : WiremockMapping × MappingStore :=
  let newId := supply st.nextId
  let m := { mapping with id := newId }
  (m, { entries := dictInsert st.entries newId m, nextId := st.nextId + 1 })

/-- Embeds `MappingService.GenerateMappingsAsync(config)` (MappingService.cs
lines 54-72): for each legacy mapping, assigns a fresh id when
`IsNullOrWhiteSpace(mapping.Id)`, then stores through `CreateMappingAsync`
(which draws another fresh id) and collects the stored object. -/
def generateMappingsAsync (supply : Nat → String) (st : MappingStore)
    (config : JsonConfig) : List WiremockMapping × MappingStore :=
  config.mappings.foldl
    (fun acc mapping =>
      let m1 :=
        if isWhiteSpaceStr mapping.id then
          { mapping with id := supply acc.2.nextId }
        else mapping
      let st1 :=
        if isWhiteSpaceStr mapping.id then
          { acc.2 with nextId := acc.2.nextId + 1 }
        else acc.2
      let r := createMappingAsync supply st1 m1
      (acc.1 ++ [r.1], r.2))
    ([], st)

/-- Embeds `MappingService.GenerateMappingsFromATOMAsync(config)`
(MappingService.cs lines 74-88): converts each mock (drawing a fresh id inside
the converter), then stores it through `CreateMappingAsync` (drawing another
fresh id) and collects the stored object. -/
def generateMappingsFromATOMAsync (supply : Nat → String) (st : MappingStore)
    (config : ATOMConfig) : List WiremockMapping × MappingStore :=
  config.mocks.foldl
    (fun acc mock =>
      let wm := convertToWiremockMapping (supply acc.2.nextId) mock config
      let st1 := { acc.2 with nextId := acc.2.nextId + 1 }
      let r := createMappingAsync supply st1 wm
      (acc.1 ++ [r.1], r.2))
    ([], st)

/-! ### ConfigValidationService -/

/-- Shorthand for constructing a `ValidationError`. -/
def vErr (path message severity : String) : ValidationError :=
  { path := path, message := message, severity := severity }

/-- The `mappings[i]` path used by the legacy validator. -/
def legacyPath (i : Nat) : String := "mappings[" ++ toString i ++ "]"

/-- Per-mapping errors of `ConfigValidationService.ValidateConfig`
(ConfigValidationService.cs lines 52-116). -/
def legacyMappingErrors (i : Nat) (mapping : WiremockMapping) :
    List ValidationError :=
  (if isWhiteSpaceStr mapping.request.method then
    [vErr (legacyPath i ++ ".request.method") "HTTP method is required" "error"]
  else []) ++
  (if isNullOrWhiteSpace mapping.request.url &&
      isNullOrWhiteSpace mapping.request.urlPattern then
    [vErr (legacyPath i ++ ".request") "Either URL or URL pattern is required"
      "error"]
  else []) ++
  (if mapping.response.status < 100 || mapping.response.status > 599 then
    [vErr (legacyPath i ++ ".response.status")
      ("HTTP status code must be between 100 and 599, got " ++
        toString mapping.response.status) "error"]
  else [])

/-- Per-mapping warnings of `ConfigValidationService.ValidateConfig`. -/
def legacyMappingWarnings (i : Nat) (mapping : WiremockMapping) :
    List ValidationError :=
  (if strFilled mapping.request.url && strFilled mapping.request.urlPattern then
    [vErr (legacyPath i ++ ".request")
      "Both URL and URL pattern specified, URL pattern will take precedence"
      "warning"]
  else []) ++
  (let bodyCount : Nat :=
    (if strFilled mapping.response.body then 1 else 0) +
    (if mapping.response.jsonBody.isSome then 1 else 0) +
    (if strFilled mapping.response.bodyFileName then 1 else 0)
  if bodyCount > 1 then
    [vErr (legacyPath i ++ ".response")
      "Multiple response body types specified, only one will be used"
      "warning"]
  else [])

/-- Embeds `ConfigValidationService.ValidateConfig(config)`
(ConfigValidationService.cs lines 15-125): legacy-dialect validation.
`IsValid` is set to `errors.Count == 0`. -/
def validateConfig (config : JsonConfig) : ValidationResult :=
  let errors :=
    (if isWhiteSpaceStr config.name then
      [vErr "name" "Configuration name is required" "error"]
    else []) ++
    (if config.mappings.length = 0 then
      [vErr "mappings" "At least one mapping is required" "error"]
    else
      (config.mappings.enum.map
        (fun mi => legacyMappingErrors mi.1 mi.2)).flatten)
  let warnings :=
    (if isWhiteSpaceStr config.version then
      [vErr "version" "Configuration version is recommended" "warning"]
    else []) ++
    (if config.mappings.length = 0 then []
    else
      (config.mappings.enum.map
        (fun mi => legacyMappingWarnings mi.1 mi.2)).flatten)
  { isValid := errors.length = 0, errors := errors, warnings := warnings }

/-- The `mocks[i]` path used by the canonical (ATOM) validator. -/
def mockPath (i : Nat) : String := "mocks[" ++ toString i ++ "]"

/-- The valid HTTP methods accepted by `ValidateATOMConfig`. -/
def validMethods : List String :=
  ["GET", "POST", "PUT", "DELETE", "PATCH", "HEAD", "OPTIONS", "ANY"]

/-- URL-matcher presence check of `ValidateATOMConfig`
(ConfigValidationService.cs lines 184-188): at least one of the five URL
fields passes the `IsNullOrWhiteSpace` filter. -/
def hasUrlMatch (r : MockRequest) : Bool :=
  strFilled r.url || strFilled r.urlPattern || strFilled r.urlPath ||
    strFilled r.urlPathPattern || strFilled r.pathTemplate

/-- URL-conflict check of `ValidateATOMConfig` (ConfigValidationService.cs
lines 201-204): exact `url` together with any of the three pattern/path
fields. -/
def urlConflict (r : MockRequest) : Bool :=
  strFilled r.url &&
    (strFilled r.urlPattern || strFilled r.urlPath || strFilled r.urlPathPattern)

/-- Per-mock errors of `ConfigValidationService.ValidateATOMConfig`
(ConfigValidationService.cs lines 154-283). -/
def atomMockErrors (i : Nat) (mock : MockConfig) : List ValidationError :=
  (if isWhiteSpaceStr mock.request.method then
    [vErr (mockPath i ++ ".request.method") "HTTP method is required" "error"]
  else if !(validMethods.contains (toUpperStr mock.request.method)) then
    [vErr (mockPath i ++ ".request.method")
      ("Invalid HTTP method: " ++ mock.request.method ++
        ". Valid methods: GET, POST, PUT, DELETE, PATCH, HEAD, OPTIONS, ANY")
      "error"]
  else []) ++
  (if mock.response.status < 100 || mock.response.status ≥ 600 then
    [vErr (mockPath i ++ ".response.status")
      ("Invalid HTTP status code: " ++ toString mock.response.status ++
        ". Must be between 100-599") "error"]
  else []) ++
  (match mock.response.body with
    | some b =>
      (if b.type = "inline" && isNullOrWhiteSpace b.value then
        [vErr (mockPath i ++ ".response.body")
          "Inline response body must have a value" "error"]
      else []) ++
      (if b.type = "file" && isNullOrWhiteSpace b.fileName then
        [vErr (mockPath i ++ ".response.body")
          "File response body must have a fileName" "error"]
      else []) ++
      (if b.type ≠ "inline" && b.type ≠ "file" then
        [vErr (mockPath i ++ ".response.body.type")
          "Response body type must be 'inline' or 'file'" "error"]
      else [])
    | none => []) ++
  (match mock.response.fixedDelayMilliseconds with
    | some d =>
      if d < 0 then
        [vErr (mockPath i ++ ".response.fixedDelayMilliseconds")
          "Fixed delay must be non-negative" "error"]
      else []
    | none => []) ++
  (match mock.response.proxyBaseUrl with
    | some u =>
      if !(isWhiteSpaceStr u) && !(uriTryCreateAbsolute u) then
        [vErr (mockPath i ++ ".response.proxyBaseUrl")
          ("Invalid proxy base URL format: " ++ u) "error"]
      else []
    | none => [])

/-- Per-mock warnings of `ConfigValidationService.ValidateATOMConfig`
(ConfigValidationService.cs lines 190-212). -/
def atomMockWarnings (i : Nat) (mock : MockConfig) : List ValidationError :=
  (if !(hasUrlMatch mock.request) then
    [vErr (mockPath i ++ ".request")
      "Request should have at least one URL matching property" "warning"]
  else []) ++
  (if urlConflict mock.request then
    [vErr (mockPath i ++ ".request")
      "Using both exact URL and URL patterns may cause conflicts" "warning"]
  else [])

/-- Target-section errors of `ValidateATOMConfig` (ConfigValidationService.cs
lines 287-349), including the auth-completeness checks, which run once per
document. -/
def atomTargetErrors (target : Option TargetConfig) : List ValidationError :=
  match target with
  | none => []
  | some t =>
    (if isNullOrWhiteSpace t.baseUrl then
      [vErr "target.baseUrl" "Target base URL is required when target is specified"
        "error"]
    else
      match t.baseUrl with
      | some u =>
        if !(uriTryCreateAbsolute u) then
          [vErr "target.baseUrl" ("Invalid base URL format: " ++ u) "error"]
        else []
      | none => []) ++
    (match t.auth with
      | none => []
      | some a =>
        (if !(["none", "basic", "bearer"].contains (toLowerStr a.type)) then
          [vErr "target.auth.type"
            ("Invalid auth type: " ++ a.type ++ ". Valid types: none, basic, bearer")
            "error"]
        else []) ++
        (if toLowerStr a.type = "basic" then
          if isNullOrWhiteSpace a.username || isNullOrWhiteSpace a.password then
            [vErr "target.auth"
              "Basic authentication requires both username and password" "error"]
          else []
        else []) ++
        (if toLowerStr a.type = "bearer" then
          if isNullOrWhiteSpace a.token then
            [vErr "target.auth" "Bearer authentication requires a token" "error"]
          else []
        else []))

/-- Defaults-section errors of `ValidateATOMConfig` (ConfigValidationService.cs
lines 352-360). -/
def atomDefaultsErrors (defaults : Option DefaultsConfig) :
    List ValidationError :=
  match defaults with
  | some d =>
    match d.priority with
    | some p =>
      if p < 1 then
        [vErr "defaults.priority" "Default priority must be 1 or greater" "error"]
      else []
    | none => []
  | none => []

/-- Embeds `ConfigValidationService.ValidateATOMConfig(config)`
(ConfigValidationService.cs lines 127-368).  `IsValid` is set to
`errors.Count == 0`. -/
def validateATOMConfig (config : ATOMConfig) : ValidationResult :=
  let errors :=
    (if isWhiteSpaceStr config.version then
      [vErr "version" "Version is required" "error"]
    else []) ++
    (if config.mocks.length = 0 then
      [vErr "mocks" "At least one mock is required" "error"]
    else
      (config.mocks.enum.map (fun mi => atomMockErrors mi.1 mi.2)).flatten) ++
    atomTargetErrors config.target ++
    atomDefaultsErrors config.defaults
  let warnings :=
    if config.mocks.length = 0 then []
    else (config.mocks.enum.map (fun mi => atomMockWarnings mi.1 mi.2)).flatten
  { isValid := errors.length = 0, errors := errors, warnings := warnings }

/-! ### ConfigValidationService.ValidateConfigFromJson (orchestrator)

The orchestrator receives a raw `JsonElement`.  Classification
(`TryGetProperty("mocks")` + array check) and `JsonSerializer.Deserialize`
are .NET library operations on the raw JSON; the embedding captures their
observable outcomes: an exception of one of the two caught kinds, a null
deserialization result, or a config value.  The validators themselves are
total, so the try block can only throw during classification or
deserialization, exactly as in the source. -/

/-- An exception thrown inside the orchestrator's try block:
`JsonException` or any other `Exception`, carrying its message. -/
inductive Thrown where
  | jsonEx (msg : String)
  | otherEx (msg : String)
  deriving Repr, DecidableEq

/-- Observable behaviour of the raw `JsonElement` under the operations the
orchestrator performs on it. -/
structure JsonElementInput where
  /-- Outcome of `TryGetProperty("mocks") && ValueKind == Array`. -/
  classify : Except Thrown Bool
  /-- Outcome of `JsonSerializer.Deserialize<ATOMConfig>` (`Except.ok none`
  models a null result). -/
  deserAtom : Except Thrown (Option ATOMConfig)
  /-- Outcome of `JsonSerializer.Deserialize<JsonConfig>`. -/
  deserLegacy : Except Thrown (Option JsonConfig)

/-- The `ValidationResult` built by the orchestrator's two catch blocks
(ConfigValidationService.cs lines 411-432). -/
def caughtResult : Thrown → ValidationResult
  | Thrown.jsonEx m =>
    { isValid := false
      errors := [vErr "root" ("JSON parsing error: " ++ m) "error"]
      warnings := [] }
  | Thrown.otherEx m =>
    { isValid := false
      errors := [vErr "root" ("Validation error: " ++ m) "error"]
      warnings := [] }

/-- Embeds `ConfigValidationService.ValidateConfigFromJson(jsonElement)`
(ConfigValidationService.cs lines 370-433). -/
def validateConfigFromJson (j : JsonElementInput) : ValidationResult :=
  match j.classify with
  | Except.error t => caughtResult t
  | Except.ok true =>
    match j.deserAtom with
    | Except.error t => caughtResult t
    | Except.ok (some atomConfig) => validateATOMConfig atomConfig
    | Except.ok none =>
      { isValid := false
        errors := [vErr "root" "Failed to deserialize ATOM config" "error"]
        warnings := [] }
  | Except.ok false =>
    match j.deserLegacy with
    | Except.error t => caughtResult t
    | Except.ok (some legacyConfig) => validateConfig legacyConfig
    | Except.ok none =>
      { isValid := false
        errors := [vErr "root" "Failed to deserialize legacy config" "error"]
        warnings := [] }

/-! ### WiremockAdminService batch deploy and ConfigController.DeployMappings

`WiremockAdminService.CreateMappingAsync` issues one HTTP POST and either
returns the server's echo of the mapping (`?? mapping` on a null
deserialization) or throws.  The embedding abstracts the remote call as a
function `call : WiremockMapping → Except String WiremockMapping` whose
`Except.error` carries the thrown exception's message. -/

/-- The mapping description used in failure entries:
`$"{Method} {Url ?? UrlPattern}"` (a null-coalesced `Option`; a null url pair
prints as the empty string). -/
def mappingDescription (m : WiremockMapping) : String :=
  m.request.method ++ " " ++
    ((m.request.url.or m.request.urlPattern).getD "")

/-- The two lists built by the loop of
`WiremockAdminService.CreateMappingsAsync` (part_002 lines 76-113):
`createdMappings` from successful calls, `failures` as
`"{description}: {message}"` strings from caught exceptions.  Each element is
attempted regardless of earlier failures. -/
def createMappingsLoop (call : WiremockMapping → Except String WiremockMapping)
    (mappings : List WiremockMapping) :
    List WiremockMapping × List String :=
  mappings.foldl
    (fun acc mapping =>
      match call mapping with
      | Except.ok created => (acc.1 ++ [created], acc.2)
      | Except.error msg =>
          (acc.1, acc.2 ++ [mappingDescription mapping ++ ": " ++ msg]))
    ([], [])

/-- Embeds `WiremockAdminService.CreateMappingsAsync`: the loop's failures are
logged only; the method returns just `createdMappings`. -/
def createMappingsAsync (call : WiremockMapping → Except String WiremockMapping)
    (mappings : List WiremockMapping) : List WiremockMapping :=
  (createMappingsLoop call mappings).1

/-- One entry of the `deployed.mappings` summary in the controller's
response. -/
structure DeployedMappingSummary where
  id : String
  method : String
  url : Option String
  deriving Repr, DecidableEq

/-- The response body of `ConfigController.DeployMappings` (part_001 lines
240-289), as an explicit record of the anonymous object the controller
returns. -/
inductive DeployMappingsResponse where
  | badRequest (message : String)
  | ok (message : String) (target : String) (mappingsCount : Nat)
      (mappings : List DeployedMappingSummary)
  deriving Repr, DecidableEq

/-- Embeds `ConfigController.DeployMappings(request)`: validates the request,
deploys through `CreateMappingsAsync`, and reports the deployed count and
per-mapping summaries.  (`CreateMappingsAsync` catches every per-item
exception, so the catch-all 500 branch of the action is unreachable from the
batch itself.) -/
def deployMappings (call : WiremockMapping → Except String WiremockMapping)
    (targetUrl : String) (mappings : List WiremockMapping) :
    DeployMappingsResponse :=
  if isWhiteSpaceStr targetUrl then
    DeployMappingsResponse.badRequest "Target URL is required"
  else if mappings.length = 0 then
    DeployMappingsResponse.badRequest "At least one mapping is required"
  else
    let deployed := createMappingsAsync call mappings
    DeployMappingsResponse.ok
      ("Successfully deployed " ++ toString deployed.length ++ " mappings to "
        ++ targetUrl)
      targetUrl deployed.length
      (deployed.map (fun m =>
        { id := m.id, method := m.request.method
          url := m.request.url.or m.request.urlPattern }))

/-! ### Client-side JSON values and schema (api.ts) -/

/-- A JavaScript/JSON value as handled by the client validator.  Numbers are
embedded as integers (every numeric constraint in the client schema is an
integer bound; `Number.isInteger` holds of every embedded number). -/
inductive Json where
  | null
  | bool (b : Bool)
  | num (n : Int)
  | str (s : String)
  | arr (xs : List Json)
  | obj (fields : List (String × Json))
  deriving Repr, BEq

/-- JavaScript `typeof` on an embedded value (`typeof null` and `typeof`
of an array are both `"object"`). -/
def jsTypeof : Json → String
  | Json.null => "object"
  | Json.bool _ => "boolean"
  | Json.num _ => "number"
  | Json.str _ => "string"
  | Json.arr _ => "object"
  | Json.obj _ => "object"

/-- `Array.isArray`. -/
def jsIsArray : Json → Bool
  | Json.arr _ => true
  | _ => false

/-- `Number.isInteger` (false on every non-number). -/
def jsIsInteger : Json → Bool
  | Json.num _ => true
  | _ => false

/-- `Object.entries` on an object-typed value: an object's own fields, or an
array's index-keyed elements. -/
def jsEntries : Json → List (String × Json)
  | Json.obj fields => fields
  | Json.arr xs => xs.enum.map (fun ix => (toString ix.1, ix.2))
  | _ => []

/-- The JavaScript `in` operator on an object-typed value. -/
def jsHasProp (j : Json) (k : String) : Bool :=
  match j with
  | Json.obj fields => fields.any (fun f => f.1 == k)
  | Json.arr xs =>
    match k.toNat? with
    | some i => decide (i < xs.length)
    | none => false
  | _ => false

/-- JavaScript string conversion of a value, used only inside diagnostic
messages. -/
def jsToDisplay : Json → String
  | Json.null => "null"
  | Json.bool b => if b then "true" else "false"
  | Json.num n => toString n
  | Json.str s => s
  | Json.arr xs =>
    String.intercalate "," (xs.attach.map (fun x => jsToDisplay x.1))
  | Json.obj _ => "[object Object]"
decreasing_by
  have h1 := List.sizeOf_lt_of_mem x.2
  simp at h1 ⊢
  omega

/-- JS `new URL(s)` succeeding, embedded by the same executable approximation
as the server-side URI check; no theorem depends on its exact behaviour. -/
def jsNewUrlOk (s : String) : Bool := uriTryCreateAbsolute s

/-- The schema dialect understood by `SimpleValidator.validate` (api.ts):
the annotations it reads are `type`, `required`, `enum`, `minimum`,
`format`, `properties`, `items`, `additionalProperties` and `oneOf`; every
other annotation (such as `const` in the response-body `oneOf` branches) is
ignored by the validator and is therefore not represented. -/
inductive JSchema where
  | mk (stype : Option String) (required : Option (List String))
      (enumVals : Option (List Json)) (minimum : Option Int)
      (format : Option String)
      (properties : Option (List (String × JSchema)))
      (items : Option JSchema)
      (addProps : Option JSchema)
      (oneOfs : Option (List JSchema))

/-- The early-returning type checks at the top of `SimpleValidator.validate`
(api.ts lines 393-414): the first failing check returns its single error and
skips every later annotation. -/
def typeCheckError (stype : Option String) (data : Json) (path : String) :
    Option ValidationError :=
  match stype with
  | none => none
  | some t =>
    if t == "object" && jsTypeof data != "object" then
      some (vErr path ("Expected object, got " ++ jsTypeof data) "error")
    else if t == "array" && !(jsIsArray data) then
      some (vErr path ("Expected array, got " ++ jsTypeof data) "error")
    else if t == "string" && jsTypeof data != "string" then
      some (vErr path ("Expected string, got " ++ jsTypeof data) "error")
    else if t == "integer" && !(jsIsInteger data) then
      some (vErr path ("Expected integer, got " ++ jsTypeof data) "error")
    else if t == "boolean" && jsTypeof data != "boolean" then
      some (vErr path ("Expected boolean, got " ++ jsTypeof data) "error")
    else none

/-- The `path ? path + "." + key : key` accumulation used for `properties`
and `additionalProperties` recursion. -/
def childPath (path key : String) : String :=
  if path == "" then key else path ++ "." ++ key

/-- The `required` check of `SimpleValidator.validate`: it only applies when
the schema declares `type: "object"`, and reports each property missing from
the (object-typed) value. -/
def requiredErrors (reqd : Option (List String)) (stype : Option String)
    (data : Json) (path : String) : List ValidationError :=
  match reqd, stype with
  | some reqProps, some "object" =>
    reqProps.filterMap (fun rp =>
      if data == Json.null || !(jsHasProp data rp) then
        some (vErr (path ++ "." ++ rp)
          ("Required property '" ++ rp ++ "' is missing") "error")
      else none)
  | _, _ => []

/-- The `enum` check of `SimpleValidator.validate` (runs whenever the
annotation is present, independent of `type`). -/
def enumErrors (enumVals : Option (List Json)) (data : Json) (path : String) :
    List ValidationError :=
  match enumVals with
  | some vs =>
    if !(vs.contains data) then
      [vErr path ("Value '" ++ jsToDisplay data ++
        "' is not allowed. Expected one of: " ++
        String.intercalate ", " (vs.map jsToDisplay)) "error"]
    else []
  | none => []

/-- The `minimum` check of `SimpleValidator.validate` (numbers only). -/
def minimumErrors (minVal : Option Int) (data : Json) (path : String) :
    List ValidationError :=
  match minVal, data with
  | some m, Json.num n =>
    if n < m then
      [vErr path ("Value " ++ toString n ++ " is less than minimum " ++
        toString m) "error"]
    else []
  | _, _ => []

/-- The `format: "uri"` check of `SimpleValidator.validate` (strings only). -/
def formatErrors (format : Option String) (data : Json) (path : String) :
    List ValidationError :=
  match format, data with
  | some f, Json.str s =>
    if f == "uri" && !(jsNewUrlOk s) then
      [vErr path ("Invalid URI format: " ++ s) "error"]
    else []
  | _, _ => []

/-- Embeds `SimpleValidator.validate(data, schema, path)` (api.ts lines
390-489).  Annotation checks run in source order; a failed top-level type
check short-circuits (the `Option.elim` on `typeCheckError` embeds the
early `return`); `oneOf` counts the branches whose full recursive validation
returns no errors. -/
def validate (data : Json) (schema : JSchema) (path : String) :
    List ValidationError :=
  match schema with
  | JSchema.mk stype reqd enumVals minVal format props items addProps oneOfs =>
    (typeCheckError stype data path).elim
      (let propErrs :=
        match props with
        | some ps =>
          if jsTypeof data == "object" && data != Json.null then
            (jsEntries data).flatMap (fun kv =>
              match ps.attach.find? (fun p => p.1.1 == kv.1) with
              | some p => validate kv.2 p.1.2 (childPath path kv.1)
              | none => [])
          else []
        | none => []
      let itemErrs :=
        match items, data with
        | some isch, Json.arr xs =>
          xs.enum.flatMap (fun ix =>
            validate ix.2 isch (path ++ "[" ++ toString ix.1 ++ "]"))
        | _, _ => []
      let addErrs :=
        match addProps with
        | some asch =>
          if jsTypeof data == "object" && data != Json.null then
            let ps := props.getD []
            (jsEntries data).flatMap (fun kv =>
              if (ps.find? (fun p => p.1 == kv.1)).isSome then []
              else validate kv.2 asch (childPath path kv.1))
          else []
        | none => []
      let oneOfErrs :=
        match oneOfs with
        | some branches =>
          let matching := branches.attach.filter
            (fun sub => (validate data sub.1 path).isEmpty)
          if matching.length = 0 then
            [vErr path "Data does not match any of the required schemas" "error"]
          else if matching.length > 1 then
            [vErr path "Data matches multiple schemas when only one is allowed"
              "error"]
          else []
        | none => []
      requiredErrors reqd stype data path ++ enumErrors enumVals data path ++
        minimumErrors minVal data path ++ formatErrors format data path ++
        propErrs ++ itemErrs ++ addErrs ++ oneOfErrs)
      (fun e => [e])
termination_by sizeOf schema
decreasing_by
  · have h1 := List.sizeOf_lt_of_mem p.2
    obtain ⟨⟨k, sub⟩, hmem⟩ := p
    simp at h1 ⊢
    omega
  · simp
    omega
  · simp
    omega
  · have h1 := List.sizeOf_lt_of_mem sub.2
    simp at h1 ⊢
    omega

/-! ### The client ATOM_SCHEMA literal (api.ts)

Transcribed schema combinators: each builds a `JSchema.mk` with the listed
annotations and `none` everywhere else. -/

/-- `{ "type": "string" }`. -/
def strSchema : JSchema :=
  JSchema.mk (some "string") none none none none none none none none

/-- `{ "type": "string", "format": "uri" }`. -/
def uriSchema : JSchema :=
  JSchema.mk (some "string") none none none (some "uri") none none none none

/-- `{ "type": "integer" }`. -/
def intSchema : JSchema :=
  JSchema.mk (some "integer") none none none none none none none none

/-- `{ "type": "integer", "minimum": m }`. -/
def intMinSchema (m : Int) : JSchema :=
  JSchema.mk (some "integer") none none (some m) none none none none none

/-- `{ "type": "boolean" }`. -/
def boolSchema : JSchema :=
  JSchema.mk (some "boolean") none none none none none none none none

/-- `{ "enum": [...] }` over string alternatives (no `type` annotation). -/
def enumSchema (vs : List String) : JSchema :=
  JSchema.mk none none (some (vs.map Json.str)) none none none none none none

/-- `{ "type": "object", "properties": {...} }` with optional `required`. -/
def objSchema (req : Option (List String)) (props : List (String × JSchema)) :
    JSchema :=
  JSchema.mk (some "object") req none none none (some props) none none none

/-- `{ "type": "object", "additionalProperties": ... }`. -/
def mapSchema (val : JSchema) : JSchema :=
  JSchema.mk (some "object") none none none none none none (some val) none

/-- `{ "type": "array", "items": ... }`. -/
def arrSchema (item : JSchema) : JSchema :=
  JSchema.mk (some "array") none none none none none (some item) none none

/-- A sub-schema carrying only `properties` and `required` (no `type`), as in
the response-body `oneOf` branches; a `const` annotation is not read by the
validator and embeds as the empty schema. -/
def bareObjSchema (req : List String) (props : List (String × JSchema)) :
    JSchema :=
  JSchema.mk none (some req) none none none (some props) none none none

/-- The empty schema (no annotations): how the validator sees the
`{ "const": ... }` branch members it does not understand. -/
def emptySchema : JSchema :=
  JSchema.mk none none none none none none none none none

/-- The `requestMatcherMap` definition of `ATOM_SCHEMA` (`$defs`): an open map
whose values have optional `equalTo` / `contains` / `matches` strings. -/
def requestMatcherMapSchema : JSchema :=
  mapSchema (objSchema none
    [("equalTo", strSchema), ("contains", strSchema), ("matches", strSchema)])

/-- The `mocks[].request` sub-schema of `ATOM_SCHEMA`. -/
def mockRequestSchema : JSchema :=
  objSchema (some ["method"])
    [("method", enumSchema
        ["GET", "POST", "PUT", "DELETE", "PATCH", "HEAD", "OPTIONS", "ANY"]),
     ("url", strSchema),
     ("urlPattern", strSchema),
     ("urlPath", strSchema),
     ("urlPathPattern", strSchema),
     ("pathTemplate", strSchema),
     ("queryParameters", requestMatcherMapSchema),
     ("headers", requestMatcherMapSchema),
     ("cookies", requestMatcherMapSchema),
     ("bodyPatterns", arrSchema (objSchema none
        [("equalToJson", objSchema none
            [("json", strSchema),
             ("ignoreExtraElements", boolSchema),
             ("ignoreArrayOrder", boolSchema)]),
         ("matchesJsonPath", strSchema)]))]

/-- The `mocks[].response.body` sub-schema of `ATOM_SCHEMA`, including its
`oneOf` pair of branches. -/
def responseBodySchema : JSchema :=
  JSchema.mk (some "object") none none none none
    (some [("type", enumSchema ["inline", "file"]),
           ("value", strSchema),
           ("fileName", strSchema),
           ("templating", boolSchema)])
    none none
    (some [bareObjSchema ["type", "value"]
             [("type", emptySchema), ("value", strSchema)],
           bareObjSchema ["type", "fileName"]
             [("type", emptySchema), ("fileName", strSchema)]])

/-- The `mocks[].response` sub-schema of `ATOM_SCHEMA`. -/
def mockResponseSchema : JSchema :=
  objSchema (some ["status"])
    [("status", intSchema),
     ("headers", mapSchema strSchema),
     ("fixedDelayMilliseconds", intMinSchema 0),
     ("proxyBaseUrl", uriSchema),
     ("body", responseBodySchema)]

/-- The `mocks` items sub-schema of `ATOM_SCHEMA`. -/
def mockItemSchema : JSchema :=
  objSchema (some ["request", "response"])
    [("name", strSchema),
     ("priority", intMinSchema 1),
     ("request", mockRequestSchema),
     ("response", mockResponseSchema),
     ("scenario", objSchema none
        [("name", strSchema), ("requiredState", strSchema),
         ("newState", strSchema)]),
     ("metadata", objSchema none [])]

/-- Embeds the `ATOM_SCHEMA` constant of api.ts. -/
def ATOM_SCHEMA : JSchema :=
  objSchema (some ["version", "mocks"])
    [("version", strSchema),
     ("target", objSchema (some ["baseUrl"])
        [("baseUrl", uriSchema),
         ("auth", objSchema none
            [("type", enumSchema ["none", "basic", "bearer"]),
             ("username", strSchema),
             ("password", strSchema),
             ("token", strSchema)])]),
     ("defaults", objSchema none
        [("priority", intMinSchema 1),
         ("headers", mapSchema strSchema),
         ("templating", objSchema none [("enabled", boolSchema)])]),
     ("mocks", arrSchema mockItemSchema)]

/-! ### Client ValidationService (api.ts)

`validateBusinessLogic` reads the parsed config through the TypeScript types
(`config as ATOMConfig`); the embedding gives that typed view explicitly.
JavaScript truthiness of an optional string field: `undefined`, `null` and
`""` are falsy. -/

/-- JS truthiness of an optional string. -/
def jsTruthy : Option String → Bool
  | none => false
  | some s => !(s.data.isEmpty)

/-- The request fields of one client-side mock as accessed by
`validateBusinessLogic`. -/
structure ClientRequestView where
  url : Option String := none
  urlPattern : Option String := none
  urlPath : Option String := none
  urlPathPattern : Option String := none
  pathTemplate : Option String := none
  deriving Repr, DecidableEq

/-- The response-body fields of one client-side mock. -/
structure ClientBodyView where
  type : Option String := none
  value : Option String := none
  fileName : Option String := none
  deriving Repr, DecidableEq

/-- One client-side mock as accessed by `validateBusinessLogic`. -/
structure ClientMockView where
  request : ClientRequestView := {}
  responseStatus : Int := 0
  responseBody : Option ClientBodyView := none
  deriving Repr, DecidableEq

/-- The client-side auth object (`config.target?.auth`). -/
structure ClientAuthView where
  type : Option String := none
  username : Option String := none
  password : Option String := none
  token : Option String := none
  deriving Repr, DecidableEq

/-- The typed view of a parsed client-side config. `mocks := none` models an
absent `mocks` property (`config.mocks?.forEach` then does nothing). -/
structure ClientATOMView where
  targetAuth : Option ClientAuthView := none
  mocks : Option (List ClientMockView) := none
  deriving Repr, DecidableEq

/-- The client-side URL-matcher presence check
(`!!(request.url || request.urlPattern || ...)`). -/
def clientHasUrlMatch (r : ClientRequestView) : Bool :=
  jsTruthy r.url || jsTruthy r.urlPattern || jsTruthy r.urlPath ||
    jsTruthy r.urlPathPattern || jsTruthy r.pathTemplate

/-- Embeds `ValidationService.validateBusinessLogic(config)` (api.ts lines
531-605).  Every check — including the `target.auth` completeness check —
sits inside the `config.mocks?.forEach` loop and therefore runs once per
mock. -/
def clientValidateBusinessLogic (config : ClientATOMView) :
    List ValidationError :=
  (config.mocks.getD []).enum.flatMap (fun im =>
    let i := im.1
    let mock := im.2
    let request := mock.request
    (if !(clientHasUrlMatch request) then
      [vErr (mockPath i ++ ".request")
        "Request must have at least one URL matching property (url, urlPattern, urlPath, urlPathPattern, or pathTemplate)"
        "warning"]
    else []) ++
    (if mock.responseStatus < 100 || mock.responseStatus ≥ 600 then
      [vErr (mockPath i ++ ".response.status")
        ("Invalid HTTP status code: " ++ toString mock.responseStatus ++
          ". Must be between 100-599") "error"]
    else []) ++
    (match mock.responseBody with
      | some body =>
        (if body.type == some "inline" && !(jsTruthy body.value) then
          [vErr (mockPath i ++ ".response.body")
            "Inline response body must have a value" "error"]
        else []) ++
        (if body.type == some "file" && !(jsTruthy body.fileName) then
          [vErr (mockPath i ++ ".response.body")
            "File response body must have a fileName" "error"]
        else [])
      | none => []) ++
    (match config.targetAuth with
      | some auth =>
        (if auth.type == some "basic" &&
            (!(jsTruthy auth.username) || !(jsTruthy auth.password)) then
          [vErr "target.auth"
            "Basic authentication requires both username and password" "error"]
        else []) ++
        (if auth.type == some "bearer" && !(jsTruthy auth.token) then
          [vErr "target.auth" "Bearer authentication requires a token" "error"]
        else [])
      | none => []) ++
    (if jsTruthy request.url &&
        (jsTruthy request.urlPattern || jsTruthy request.urlPath ||
          jsTruthy request.urlPathPattern) then
      [vErr (mockPath i ++ ".request")
        "Using both exact URL and URL patterns may cause conflicts" "warning"]
    else []))

/-- The raw input of `ValidationService.validateATOMConfig`: the underlying
JSON value (fed to the schema validator) together with the typed view of the
same value used by `validateBusinessLogic`; an `Except.error` in the typed
view models a property access throwing inside the `try` block (caught and
converted to a root error). -/
structure ClientRawConfig where
  json : Json
  typedView : Except String ClientATOMView

/-- Embeds `ValidationService.validateATOMConfig(config)` (api.ts lines
495-529): non-object input is rejected at the root, schema and business
errors are concatenated and partitioned by severity, and `isValid` is the
emptiness of the error partition. -/
def clientValidateATOMConfig (raw : ClientRawConfig) : ValidationResult :=
  if raw.json == Json.null || jsTypeof raw.json != "object" then
    { isValid := false
      errors := [vErr "root" "Invalid JSON structure" "error"]
      warnings := [] }
  else
    match raw.typedView with
    | Except.error m =>
      { isValid := false
        errors := [vErr "root" ("Validation error: " ++ m) "error"]
        warnings := [] }
    | Except.ok cfg =>
      let errors := validate raw.json ATOM_SCHEMA ""
      let businessErrors := clientValidateBusinessLogic cfg
      let allErrors := errors ++ businessErrors
      let errorList := allErrors.filter (fun e => e.severity == "error")
      let warningList := allErrors.filter (fun e => e.severity == "warning")
      { isValid := errorList.length = 0
        errors := errorList
        warnings := warningList }

/-! ### Concrete fixtures used by the theorems -/

/-- A mock whose only URL-matching field is `pathTemplate = "/users/{id}"`. -/
def mockPathTemplateOnly : MockConfig :=
  { request := { method := "GET", pathTemplate := some "/users/\x7bid\x7d" }
    response := { status := 200 } }

/-- A single-mock canonical document around `mockPathTemplateOnly`. -/
def atomCfgPathTemplate : ATOMConfig :=
  { version := "1.0", mocks := [mockPathTemplateOnly] }

/-- Deterministic stand-in for the `Guid.NewGuid()` supply. -/
def guidSupply : Nat → String := fun n => "guid-" ++ toString n

/-- A legacy mapping that already carries the id `"abc"`. -/
def legacyMappingAbc : WiremockMapping :=
  { id := "abc"
    request := { method := "GET", url := some "/x" }
    response := { status := 200 } }

/-- A legacy document containing only `legacyMappingAbc`. -/
def legacyCfgAbc : JsonConfig :=
  { name := "cfg", version := "1", mappings := [legacyMappingAbc] }

/-! ### C1: pathTemplate conversion -/

/-- `isNullOrWhiteSpace` on a present string is the plain whitespace test. -/
theorem isNullOrWhiteSpace_some (s : String) :
    isNullOrWhiteSpace (some s) = isWhiteSpaceStr s := rfl

/-- Helper: the URL fields the converter assigns are exactly
`resolveUrlMatching` of the mock's request. -/
theorem convert_url_fields (freshId : String) (mock : MockConfig)
    (config : ATOMConfig) :
    (convertToWiremockMapping freshId mock config).request.url
        = (resolveUrlMatching mock.request).1 ∧
      (convertToWiremockMapping freshId mock config).request.urlPattern
        = (resolveUrlMatching mock.request).2 := by
  constructor <;> rfl

/-- C1 counterexample: on the template `"/users/{id}"` the transformer's
pathTemplate branch produces the pattern `"/users/([^/]+)id"` — the braces
are dropped but the placeholder name `id` is kept — not the claimed
`"/users/([^/]+)"`. -/
theorem c1_counterexample :
    (convertToWiremockMapping "id0" mockPathTemplateOnly
        atomCfgPathTemplate).request.urlPattern = some "/users/([^/]+)id" ∧
      some "/users/([^/]+)id" ≠ some "/users/([^/]+)" := by
  constructor
  · rfl
  · decide

/-- C1 (amended): for every mock whose URL matcher resolves via the
pathTemplate branch (the four earlier URL fields null/whitespace, the
template present), the transformer emits a pattern match whose value is the
template with every `"{"` replaced by the capture group `"([^/]+)"` and every
`"}"` deleted; the placeholder name itself is kept in the pattern. -/
theorem c1_path_template_branch (freshId : String) (mock : MockConfig)
    (config : ATOMConfig) (t : String)
    (h1 : isNullOrWhiteSpace mock.request.url = true)
    (h2 : isNullOrWhiteSpace mock.request.urlPattern = true)
    (h3 : isNullOrWhiteSpace mock.request.urlPath = true)
    (h4 : isNullOrWhiteSpace mock.request.urlPathPattern = true)
    (h5 : mock.request.pathTemplate = some t)
    (h6 : isWhiteSpaceStr t = false) :
    (convertToWiremockMapping freshId mock config).request.urlPattern
        = some (replaceCharStr (replaceCharStr t '\x7b' "([^/]+)") '\x7d' "") ∧
      (convertToWiremockMapping freshId mock config).request.url = none := by
  have h := convert_url_fields freshId mock config
  rw [h.1, h.2]
  simp [resolveUrlMatching, strFilled, h1, h2, h3, h4, h5,
    isNullOrWhiteSpace_some, h6]

/-- C1 witness: the amended branch theorem applied to the concrete
`"/users/{id}"` mock. -/
theorem c1_witness :
    (convertToWiremockMapping "id0" mockPathTemplateOnly
        atomCfgPathTemplate).request.urlPattern
        = some (replaceCharStr
            (replaceCharStr "/users/\x7bid\x7d" '\x7b' "([^/]+)") '\x7d' "") ∧
      (convertToWiremockMapping "id0" mockPathTemplateOnly
        atomCfgPathTemplate).request.url = none :=
  c1_path_template_branch "id0" mockPathTemplateOnly atomCfgPathTemplate
    "/users/\x7bid\x7d" (by decide) (by decide) (by decide) (by decide) rfl
    (by decide)

/-! ### C3: legacy generation and pre-existing ids -/

/-- C3: the code contradicts the claim that a pre-existing id survives
generation.  `GenerateMappingsAsync` only assigns a fresh id when the
incoming id is blank, but it then stores through `CreateMappingAsync`, which
unconditionally overwrites `mapping.Id` with a new `Guid`.  At the failing
input — a legacy mapping already carrying id `"abc"` — the generated mapping
comes back with the freshly drawn id, not `"abc"`. -/
theorem c3_preexisting_id_overwritten :
    ((generateMappingsAsync guidSupply {} legacyCfgAbc).1.map
        (fun m => m.id) = ["guid-0"]) ∧
      "guid-0" ≠ "abc" := by
  constructor
  · rfl
  · decide

/-! ### C9: priority resolution -/

/-- Scenario D document: `defaults.priority = 5`, first mock without a
priority, second mock with priority 2. -/
def scenarioDCfg : ATOMConfig :=
  { version := "1.0"
    defaults := some { priority := some 5 }
    mocks :=
      [{ request := { method := "GET", url := some "/a" }
         response := { status := 200 } },
       { priority := some 2
         request := { method := "GET", url := some "/b" }
         response := { status := 200 } }] }

/-- C9: the generated mapping's priority is the mock's own priority when
present, else the document default when present, else absent
(`mock.Priority ?? config.Defaults?.Priority`); on Scenario D the two mocks
come out with priorities 5 and 2. -/
theorem c9_priority_resolution (freshId : String) (mock : MockConfig)
    (config : ATOMConfig) :
    ((convertToWiremockMapping freshId mock config).priority
        = mock.priority.or (config.defaults.bind (fun d => d.priority))) ∧
      ((generateMappingsFromATOMAsync guidSupply {} scenarioDCfg).1.map
        (fun m => m.priority) = [some 5, some 2]) := by
  constructor
  · cases hp : mock.priority <;>
      simp [convertToWiremockMapping, Option.or, hp]
  · rfl

/-! ### C4: URL-matching resolution order -/

/-- Scenario A mock: `urlPath` and `pathTemplate` both set to
`"/users/{id}"`. -/
def scenarioAMock : MockConfig :=
  { request := { method := "GET", urlPath := some "/users/\x7bid\x7d"
                 pathTemplate := some "/users/\x7bid\x7d" }
    response := { status := 200
                  body := some { type := "inline", value := some "\x7b\x7d" } } }

/-- Scenario A document. -/
def scenarioACfg : ATOMConfig :=
  { version := "1.0", mocks := [scenarioAMock] }

/-- In every branch of the resolution chain at least one of the two output
URL fields stays null. -/
theorem resolveUrlMatching_exclusive (r : MockRequest) :
    ¬((resolveUrlMatching r).1.isSome = true ∧
      (resolveUrlMatching r).2.isSome = true) := by
  unfold resolveUrlMatching
  split_ifs <;> simp

/-- C4: the transformer picks the first present source field in the order
`url`, `urlPattern`, `urlPath`, `urlPathPattern`, `pathTemplate`; `urlPath`
is emitted as an exact url match and `urlPathPattern` as a regex pattern; at
most one output URL field is populated; with none of the five present no URL
matcher is emitted; and on Scenario A (both `urlPath` and `pathTemplate`
set) the mock resolves via the `urlPath` branch. -/
theorem c4_url_resolution_order (freshId : String) (mock : MockConfig)
    (config : ATOMConfig) :
    (strFilled mock.request.url = true →
      (convertToWiremockMapping freshId mock config).request.url
          = mock.request.url ∧
        (convertToWiremockMapping freshId mock config).request.urlPattern
          = none) ∧
    (strFilled mock.request.url = false →
      strFilled mock.request.urlPattern = true →
      (convertToWiremockMapping freshId mock config).request.urlPattern
          = mock.request.urlPattern ∧
        (convertToWiremockMapping freshId mock config).request.url = none) ∧
    (strFilled mock.request.url = false →
      strFilled mock.request.urlPattern = false →
      strFilled mock.request.urlPath = true →
      (convertToWiremockMapping freshId mock config).request.url
          = mock.request.urlPath ∧
        (convertToWiremockMapping freshId mock config).request.urlPattern
          = none) ∧
    (strFilled mock.request.url = false →
      strFilled mock.request.urlPattern = false →
      strFilled mock.request.urlPath = false →
      strFilled mock.request.urlPathPattern = true →
      (convertToWiremockMapping freshId mock config).request.urlPattern
          = mock.request.urlPathPattern ∧
        (convertToWiremockMapping freshId mock config).request.url = none) ∧
    (strFilled mock.request.url = false →
      strFilled mock.request.urlPattern = false →
      strFilled mock.request.urlPath = false →
      strFilled mock.request.urlPathPattern = false →
      strFilled mock.request.pathTemplate = false →
      (convertToWiremockMapping freshId mock config).request.url = none ∧
        (convertToWiremockMapping freshId mock config).request.urlPattern
          = none) ∧
    ¬((convertToWiremockMapping freshId mock config).request.url.isSome = true ∧
      (convertToWiremockMapping freshId mock config).request.urlPattern.isSome
        = true) ∧
    ((convertToWiremockMapping "a0" scenarioAMock scenarioACfg).request.url
        = some "/users/\x7bid\x7d" ∧
      (convertToWiremockMapping "a0" scenarioAMock
        scenarioACfg).request.urlPattern = none) := by
  obtain ⟨hu, hp⟩ := convert_url_fields freshId mock config
  refine ⟨?_, ?_, ?_, ?_, ?_, ?_, ?_⟩
  · intro h1
    rw [hu, hp]
    simp [resolveUrlMatching, h1]
  · intro h1 h2
    rw [hu, hp]
    simp [resolveUrlMatching, h1, h2]
  · intro h1 h2 h3
    rw [hu, hp]
    simp [resolveUrlMatching, h1, h2, h3]
  · intro h1 h2 h3 h4
    rw [hu, hp]
    simp [resolveUrlMatching, h1, h2, h3, h4]
  · intro h1 h2 h3 h4 h5
    rw [hu, hp]
    simp [resolveUrlMatching, h1, h2, h3, h4, h5]
  · rw [hu, hp]
    exact resolveUrlMatching_exclusive mock.request
  · constructor
    · rfl
    · rfl

/-- C4 witness: the resolution-order theorem applied to the Scenario A mock,
discharging the hypotheses of the `urlPath` branch at a concrete input. -/
theorem c4_witness :
    (convertToWiremockMapping "a0" scenarioAMock scenarioACfg).request.url
        = scenarioAMock.request.urlPath ∧
      (convertToWiremockMapping "a0" scenarioAMock
        scenarioACfg).request.urlPattern = none :=
  (c4_url_resolution_order "a0" scenarioAMock scenarioACfg).2.2.1
    (by decide) (by decide) (by decide)

/-! ### C10: empty / whitespace URL fields are treated as absent -/

/-- `isNullOrWhiteSpace` on a null string. -/
theorem isNullOrWhiteSpace_none : isNullOrWhiteSpace none = true := rfl

/-- C10: a URL-matching field holding a whitespace-only (or empty) string
behaves exactly like an absent field in the validator's presence check
(`hasUrlMatch`), in its conflict check (`urlConflict`), and in the
transformer's resolution chain (`resolveUrlMatching`), for each of the five
source fields. -/
theorem c10_whitespace_equals_absent (s : String)
    (h : isWhiteSpaceStr s = true) (r : MockRequest) :
    (hasUrlMatch { r with url := some s } = hasUrlMatch { r with url := none } ∧
      urlConflict { r with url := some s } = urlConflict { r with url := none } ∧
      resolveUrlMatching { r with url := some s }
        = resolveUrlMatching { r with url := none }) ∧
    (hasUrlMatch { r with urlPattern := some s }
        = hasUrlMatch { r with urlPattern := none } ∧
      urlConflict { r with urlPattern := some s }
        = urlConflict { r with urlPattern := none } ∧
      resolveUrlMatching { r with urlPattern := some s }
        = resolveUrlMatching { r with urlPattern := none }) ∧
    (hasUrlMatch { r with urlPath := some s }
        = hasUrlMatch { r with urlPath := none } ∧
      urlConflict { r with urlPath := some s }
        = urlConflict { r with urlPath := none } ∧
      resolveUrlMatching { r with urlPath := some s }
        = resolveUrlMatching { r with urlPath := none }) ∧
    (hasUrlMatch { r with urlPathPattern := some s }
        = hasUrlMatch { r with urlPathPattern := none } ∧
      urlConflict { r with urlPathPattern := some s }
        = urlConflict { r with urlPathPattern := none } ∧
      resolveUrlMatching { r with urlPathPattern := some s }
        = resolveUrlMatching { r with urlPathPattern := none }) ∧
    (hasUrlMatch { r with pathTemplate := some s }
        = hasUrlMatch { r with pathTemplate := none } ∧
      urlConflict { r with pathTemplate := some s }
        = urlConflict { r with pathTemplate := none } ∧
      resolveUrlMatching { r with pathTemplate := some s }
        = resolveUrlMatching { r with pathTemplate := none }) := by
  refine ⟨⟨?_, ?_, ?_⟩, ⟨?_, ?_, ?_⟩, ⟨?_, ?_, ?_⟩, ⟨?_, ?_, ?_⟩,
    ⟨?_, ?_, ?_⟩⟩ <;>
    simp [hasUrlMatch, urlConflict, resolveUrlMatching, strFilled,
      isNullOrWhiteSpace_some, isNullOrWhiteSpace_none, h]

/-- C10 witness: the whitespace-as-absent theorem applied at the single-space
string and a concrete request. -/
theorem c10_witness :
    isWhiteSpaceStr " " = true ∧
      hasUrlMatch
          { scenarioAMock.request with url := some " " }
        = hasUrlMatch { scenarioAMock.request with url := none } :=
  ⟨by decide,
    (c10_whitespace_equals_absent " " (by decide) scenarioAMock.request).1.1⟩

/-! ### C2: batch deploy -/

/-- A minimal deployable mapping hitting the given url. -/
def batchMapping (u : String) : WiremockMapping :=
  { request := { method := "GET", url := some u }
    response := { status := 200 } }

/-- A simulated remote create call that fails with message `msg` exactly on
the mapping whose url is `"/b"` and echoes every other mapping. -/
def callFailSecond (msg : String) :
    WiremockMapping → Except String WiremockMapping :=
  fun m =>
    if m.request.url == some "/b" then Except.error msg else Except.ok m

/-- The deploy loop visits every mapping independently: the created list is
exactly the successful calls in order and the failures list exactly the
failed calls' descriptions, regardless of where failures occur. -/
theorem createMappingsLoop_spec
    (call : WiremockMapping → Except String WiremockMapping)
    (mappings : List WiremockMapping) :
    createMappingsLoop call mappings
      = (mappings.filterMap (fun m => (call m).toOption),
         mappings.filterMap (fun m =>
           match call m with
           | Except.error msg =>
               some (mappingDescription m ++ ": " ++ msg)
           | Except.ok _ => none)) := by
  have aux : ∀ (ms : List WiremockMapping)
      (acc : List WiremockMapping × List String),
      List.foldl
        (fun acc mapping =>
          match call mapping with
          | Except.ok created => (acc.1 ++ [created], acc.2)
          | Except.error msg =>
              (acc.1, acc.2 ++ [mappingDescription mapping ++ ": " ++ msg]))
        acc ms
        = (acc.1 ++ ms.filterMap (fun m => (call m).toOption),
           acc.2 ++ ms.filterMap (fun m =>
             match call m with
             | Except.error msg =>
                 some (mappingDescription m ++ ": " ++ msg)
             | Except.ok _ => none)) := by
    intro ms
    induction ms with
    | nil => intro acc; simp
    | cons m rest ih =>
      intro acc
      rw [List.foldl_cons]
      cases hc : call m with
      | ok c =>
        rw [ih]
        simp [hc, Except.toOption]
      | error e =>
        rw [ih]
        simp [hc, Except.toOption]
  unfold createMappingsLoop
  rw [aux]
  simp

/-- C2 counterexample: the failure list is not part of the batch operation's
returned result.  Two runs over the same three mappings whose second create
call fails with different messages produce identical return values of
`CreateMappingsAsync` and identical `DeployMappings` responses, while the
internally collected (log-only) failure lists differ — so neither returned
result carries the failures. -/
theorem c2_counterexample :
    (createMappingsAsync (callFailSecond "boom")
        [batchMapping "/a", batchMapping "/b", batchMapping "/c"]
      = createMappingsAsync (callFailSecond "bang")
        [batchMapping "/a", batchMapping "/b", batchMapping "/c"]) ∧
    (deployMappings (callFailSecond "boom") "http://wm"
        [batchMapping "/a", batchMapping "/b", batchMapping "/c"]
      = deployMappings (callFailSecond "bang") "http://wm"
        [batchMapping "/a", batchMapping "/b", batchMapping "/c"]) ∧
    ((createMappingsLoop (callFailSecond "boom")
        [batchMapping "/a", batchMapping "/b", batchMapping "/c"]).2
      ≠ (createMappingsLoop (callFailSecond "bang")
        [batchMapping "/a", batchMapping "/b", batchMapping "/c"]).2) := by
  refine ⟨rfl, rfl, ?_⟩
  decide

/-- C2 (amended): each mapping create is attempted independently — a failure
on one mapping does not abort the rest — successes and failures are collected
separately, and the success count is present in the batch result; but only
the successes are returned: the failure list is logged, not reported in the
result.  On Scenario E (three mappings, second create fails) two succeed, one
failure is collected internally, and the response reports the success count
2. -/
theorem c2_batch_deploy_amended
    (call : WiremockMapping → Except String WiremockMapping)
    (mappings : List WiremockMapping) :
    (createMappingsAsync call mappings
        = mappings.filterMap (fun m => (call m).toOption)) ∧
    ((createMappingsLoop call mappings).2
        = mappings.filterMap (fun m =>
            match call m with
            | Except.error msg =>
                some (mappingDescription m ++ ": " ++ msg)
            | Except.ok _ => none)) ∧
    ((createMappingsAsync (callFailSecond "boom")
        [batchMapping "/a", batchMapping "/b", batchMapping "/c"]).length
      = 2) ∧
    ((createMappingsLoop (callFailSecond "boom")
        [batchMapping "/a", batchMapping "/b", batchMapping "/c"]).2
      = ["GET /b: boom"]) ∧
    (deployMappings (callFailSecond "boom") "http://wm"
        [batchMapping "/a", batchMapping "/b", batchMapping "/c"]
      = DeployMappingsResponse.ok
          "Successfully deployed 2 mappings to http://wm" "http://wm" 2
          [{ id := "", method := "GET", url := some "/a" },
           { id := "", method := "GET", url := some "/c" }]) := by
  have h := createMappingsLoop_spec call mappings
  refine ⟨?_, ?_, rfl, rfl, rfl⟩
  · unfold createMappingsAsync
    rw [h]
  · rw [h]

/-! ### C5: isValid iff no errors -/

/-- `validateConfig` satisfies the validity invariant. -/
theorem validateConfig_isValid_iff (config : JsonConfig) :
    (validateConfig config).isValid = true ↔
      (validateConfig config).errors = [] := by
  simp [validateConfig, List.length_eq_zero]

/-- `validateATOMConfig` satisfies the validity invariant. -/
theorem validateATOMConfig_isValid_iff (config : ATOMConfig) :
    (validateATOMConfig config).isValid = true ↔
      (validateATOMConfig config).errors = [] := by
  simp [validateATOMConfig, List.length_eq_zero]

/-- The catch-branch results satisfy the validity invariant (they are invalid
and carry one error). -/
theorem caughtResult_isValid_iff (t : Thrown) :
    (caughtResult t).isValid = true ↔ (caughtResult t).errors = [] := by
  cases t <;> simp [caughtResult]

/-- C5: every `ValidationResult` produced by the validation entry points —
the legacy validator, the canonical validator, the orchestrator, and the
client-side validator — satisfies `isValid == (errors.length == 0)`; since
`isValid` is determined by the error list alone, the warnings list has no
effect on it. -/
theorem c5_isValid_iff_no_errors :
    (∀ config : JsonConfig,
      (validateConfig config).isValid = true ↔
        (validateConfig config).errors = []) ∧
    (∀ config : ATOMConfig,
      (validateATOMConfig config).isValid = true ↔
        (validateATOMConfig config).errors = []) ∧
    (∀ j : JsonElementInput,
      (validateConfigFromJson j).isValid = true ↔
        (validateConfigFromJson j).errors = []) ∧
    (∀ raw : ClientRawConfig,
      (clientValidateATOMConfig raw).isValid = true ↔
        (clientValidateATOMConfig raw).errors = []) := by
  refine ⟨validateConfig_isValid_iff, validateATOMConfig_isValid_iff, ?_, ?_⟩
  · intro j
    unfold validateConfigFromJson
    cases j.classify with
    | error t => exact caughtResult_isValid_iff t
    | ok b =>
      cases b with
      | true =>
        cases j.deserAtom with
        | error t => exact caughtResult_isValid_iff t
        | ok o =>
          cases o with
          | some c => exact validateATOMConfig_isValid_iff c
          | none => simp
      | false =>
        cases j.deserLegacy with
        | error t => exact caughtResult_isValid_iff t
        | ok o =>
          cases o with
          | some c => exact validateConfig_isValid_iff c
          | none => simp
  · intro raw
    unfold clientValidateATOMConfig
    split
    · simp
    · cases raw.typedView with
      | error m => simp
      | ok cfg => simp [List.length_eq_zero]

/-! ### C6: orchestrator failure semantics -/

/-- C6: the orchestrator is a total function into `ValidationResult` (it
never raises past its boundary), and an exception thrown during
classification or deserialization is converted into exactly one root-level
error entry carrying the exception's message. -/
theorem c6_orchestrator_exception_handling (j : JsonElementInput)
    (t : Thrown) :
    (j.classify = Except.error t →
      validateConfigFromJson j = caughtResult t) ∧
    (j.classify = Except.ok true → j.deserAtom = Except.error t →
      validateConfigFromJson j = caughtResult t) ∧
    (j.classify = Except.ok false → j.deserLegacy = Except.error t →
      validateConfigFromJson j = caughtResult t) ∧
    ((caughtResult t).errors.map (fun e => e.path) = ["root"] ∧
      (caughtResult t).errors.map (fun e => e.message)
        = [match t with
           | Thrown.jsonEx m => "JSON parsing error: " ++ m
           | Thrown.otherEx m => "Validation error: " ++ m]) := by
  refine ⟨?_, ?_, ?_, ?_⟩
  · intro h
    unfold validateConfigFromJson
    rw [h]
  · intro h1 h2
    unfold validateConfigFromJson
    rw [h1, h2]
  · intro h1 h2
    unfold validateConfigFromJson
    rw [h1, h2]
  · cases t <;> simp [caughtResult, vErr]

/-- A raw input whose classification throws a `JsonException`. -/
def jsonExInput : JsonElementInput :=
  { classify := Except.error (Thrown.jsonEx "bad token")
    deserAtom := Except.ok none
    deserLegacy := Except.ok none }

/-- C6 witness: the exception-handling theorem applied to a concrete input
whose classification throws. -/
theorem c6_witness :
    validateConfigFromJson jsonExInput
      = caughtResult (Thrown.jsonEx "bad token") :=
  (c6_orchestrator_exception_handling jsonExInput
    (Thrown.jsonEx "bad token")).1 rfl

/-! ### C7: auth completeness, once per document vs once per mock -/

/-- A well-formed client-side mock (url set, status 200). -/
def clientOkMock : ClientMockView :=
  { request := { url := some "/x" }, responseStatus := 200 }

/-- A client-side document with two mocks and a basic auth spec that is
missing its password. -/
def clientCfgTwoMocks : ClientATOMView :=
  { targetAuth := some { type := some "basic", username := some "u" }
    mocks := some [clientOkMock, clientOkMock] }

/-- The same document on the server side. -/
def serverCfgTwoMocks : ATOMConfig :=
  { version := "1.0"
    target := some
      { baseUrl := some "http://host/x"
        auth := some { type := "basic", username := some "u" } }
    mocks :=
      [{ request := { method := "GET", url := some "/x" }
         response := { status := 200 } },
       { request := { method := "GET", url := some "/y" }
         response := { status := 200 } }] }

/-- C7: on a two-mock canonical document whose basic auth is missing the
password, the client-side business-rule validator emits the `target.auth`
error twice — once per mock, because its auth check sits inside the per-mock
loop — while the server-side validator emits it exactly once per document. -/
theorem c7_auth_rule_emitted_per_mock :
    ((clientValidateBusinessLogic clientCfgTwoMocks).filter
        (fun e => e.path == "target.auth")).length = 2 ∧
      ((validateATOMConfig serverCfgTwoMocks).errors.filter
        (fun e => e.path == "target.auth")).length = 1 := by
  constructor
  · rfl
  · rfl

/-! ### C8: oneOf cardinality -/

set_option maxHeartbeats 4000000 in
/-- C8: when the top-level type check passes, a schema carrying a `oneOf`
annotation produces exactly the errors of the same schema without the
annotation, followed by a cardinality error determined by counting, over
every branch, those whose full recursive validation returns no errors: one
error when zero branches match, one when more than one branch matches, and
none when exactly one matches. -/
theorem c8_oneOf_cardinality (data : Json) (stype : Option String)
    (reqd : Option (List String)) (enumVals : Option (List Json))
    (minVal : Option Int) (format : Option String)
    (props : Option (List (String × JSchema))) (items : Option JSchema)
    (addProps : Option JSchema) (branches : List JSchema) (path : String)
    (h : typeCheckError stype data path = none) :
    validate data
        (JSchema.mk stype reqd enumVals minVal format props items addProps
          (some branches)) path
      = validate data
          (JSchema.mk stype reqd enumVals minVal format props items addProps
            none) path ++
        (if (branches.filter
              (fun sub => (validate data sub path).isEmpty)).length = 0 then
          [vErr path "Data does not match any of the required schemas" "error"]
        else if 1 < (branches.filter
              (fun sub => (validate data sub path).isEmpty)).length then
          [vErr path "Data matches multiple schemas when only one is allowed"
            "error"]
        else []) := by
  have hlen : (branches.attach.filter
        (fun sub => (validate data sub.1 path).isEmpty)).length
      = (branches.filter (fun sub => (validate data sub path).isEmpty)).length := by
    rw [← List.countP_eq_length_filter, ← List.countP_eq_length_filter]
    exact List.countP_attach branches (fun x => (validate data x path).isEmpty)
  rw [validate.eq_def, validate.eq_def]
  dsimp only
  rw [h]
  simp [Option.elim, hlen, List.append_assoc]

/-- C8 witness: the cardinality theorem applied to a concrete string value
against a branch list where exactly one branch (the string schema) matches. -/
theorem c8_witness :
    validate (Json.str "v")
        (JSchema.mk none none none none none none none none
          (some [strSchema, intSchema])) "p"
      = validate (Json.str "v")
          (JSchema.mk none none none none none none none none none) "p" ++
        (if ([strSchema, intSchema].filter
              (fun sub => (validate (Json.str "v") sub "p").isEmpty)).length
            = 0 then
          [vErr "p" "Data does not match any of the required schemas" "error"]
        else if 1 < ([strSchema, intSchema].filter
              (fun sub => (validate (Json.str "v") sub "p").isEmpty)).length then
          [vErr "p" "Data matches multiple schemas when only one is allowed"
            "error"]
        else []) :=
  c8_oneOf_cardinality (Json.str "v") none none none none none none none none
    [strSchema, intSchema] "p" rfl

end WiremockGen
